import Mathlib

/-
  Verification development for the AgentNexus escrow & settlement engine.

  Part 1 embeds src/smart-contracts/src/AgentNexusEscrow.sol as pure Lean
  functions over an explicit contract-state record.  Solidity `uint256`
  values are Nat; checked arithmetic (Solidity >= 0.8 reverts on overflow)
  is modelled by explicit overflow guards returning an error; a revert is
  an `Except.error`, which by EVM semantics leaves the pre-state intact,
  so an operation that returns an error performs no state change.
  Addresses, token addresses, agent ids and bytes32 payment ids are Nat.
  The ERC20 tokens moved by SafeERC20 are modelled as a balance map
  carried in the state (token -> holder -> balance); `safeTransferFrom` /
  `safeTransfer` reverting on insufficient funds is the transfer guard
  (allowances are abstracted into that guard).
-/

def UINT256_MOD : Nat := 2 ^ 256

/-- PaymentStatus enum of AgentNexusEscrow.sol (Pending is the mapping
default for a nonexistent payment). -/
inductive PaymentStatus where
  | pending
  | escrowed
  | released
  | refunded
  | disputed
deriving DecidableEq, Repr

/-- Payment struct of AgentNexusEscrow.sol. -/
structure Payment where
  user : Nat
  developer : Nat
  agentId : Nat
  amount : Nat
  token : Nat
  status : PaymentStatus
  createdAt : Nat
  expiresAt : Nat
deriving DecidableEq, Repr

/-- The zero value a Solidity mapping returns for an absent key. -/
def emptyPayment : Payment :=
  { user := 0, developer := 0, agentId := 0, amount := 0, token := 0
    status := PaymentStatus.pending, createdAt := 0, expiresAt := 0 }

/-- Events emitted by AgentNexusEscrow.sol. -/
inductive EvmEvent where
  | paymentDeposited (paymentId user developer agentId amount token : Nat)
  | paymentReleased (paymentId developer amount platformFee : Nat)
  | paymentRefunded (paymentId user amount : Nat)
  | agentRegistered (agentId developer : Nat)
  | platformFeeUpdated (newFeePercentage : Nat)
  | tokenSupportUpdated (token : Nat) (supported : Bool)
deriving DecidableEq, Repr

/-- Revert reasons of AgentNexusEscrow.sol, one constructor per revert
string, plus the AccessControl role revert, the SafeERC20 transfer
failure, and the Solidity checked-arithmetic revert. -/
inductive EvmErr where
  | tokenNotSupported      -- require: "Token not supported"
  | paymentAlreadyExists   -- require: "Payment already exists"
  | agentNotRegistered     -- require: "Agent not registered"
  | amountNotPositive      -- require: "Amount must be positive"
  | paymentNotInEscrow     -- require: "Payment not in escrow"
  | paymentExpired         -- require: "Payment expired"
  | feeTooHigh             -- require: "Fee too high"
  | invalidDeveloper       -- require: "Invalid developer address"
  | missingRole            -- AccessControl onlyRole revert
  | erc20TransferFailed    -- SafeERC20 transfer revert
  | uintOverflow           -- checked uint256 arithmetic revert
deriving DecidableEq, Repr

/-- Contract storage of AgentNexusEscrow.sol together with the modelled
ERC20 balances and the emitted event log (most recent event first). -/
structure EscrowState where
  payments : Nat → Payment
  agentDevelopers : Nat → Nat
  supportedTokens : Nat → Bool
  platformFeeRecipient : Nat
  platformFeePercentage : Nat
  isAdmin : Nat → Bool          -- DEFAULT_ADMIN_ROLE
  isOrchestrator : Nat → Bool   -- ORCHESTRATOR_ROLE
  balances : Nat → Nat → Nat    -- token → holder → ERC20 balance
  events : List EvmEvent

/-- MAX_PLATFORM_FEE constant (10%). -/
def MAX_PLATFORM_FEE : Nat := 1000

/-- PAYMENT_EXPIRY constant (7 days in seconds). -/
def PAYMENT_EXPIRY : Nat := 7 * 24 * 60 * 60

/-- address(this) of the escrow contract, distinct from all example
externally-owned addresses used below. -/
def escrowAddr : Nat := 2 ^ 160

/-- Pointwise update of a balance map at one (token, holder) cell. -/
def setBal (b : Nat → Nat → Nat) (t h v : Nat) : Nat → Nat → Nat :=
  fun t2 h2 => if t2 = t ∧ h2 = h then v else b t2 h2

/-- ERC20 transfer as performed by SafeERC20: reverts when the sender
balance is insufficient, otherwise debits `fromAddr` and credits
`toAddr`. -/
def erc20Transfer (s : EscrowState) (token fromAddr toAddr amount : Nat) :
    Except EvmErr EscrowState :=
  if s.balances token fromAddr < amount then .error .erc20TransferFailed
  else
    let b1 := setBal s.balances token fromAddr (s.balances token fromAddr - amount)
    let b2 := setBal b1 token toAddr (b1 token toAddr + amount)
    .ok { s with balances := b2 }

/-- depositPayment of AgentNexusEscrow.sol.  The require checks appear in
source order: token support, duplicate payment id, agent registration,
positive amount; then the token transfer into escrow, then the Payment
record and the event. -/
def depositPayment (s : EscrowState) (sender now paymentId agentId amount token : Nat) :
    Except EvmErr EscrowState :=
  if s.supportedTokens token = false then .error .tokenNotSupported
  else if (s.payments paymentId).user ≠ 0 then .error .paymentAlreadyExists
  else if s.agentDevelopers agentId = 0 then .error .agentNotRegistered
  else if amount = 0 then .error .amountNotPositive
  else if UINT256_MOD ≤ now + PAYMENT_EXPIRY then .error .uintOverflow
  else
    erc20Transfer s token sender escrowAddr amount >>= fun s1 =>
    .ok { s1 with
      payments := fun pid => if pid = paymentId then
          { user := sender, developer := s.agentDevelopers agentId, agentId := agentId,
            amount := amount, token := token, status := PaymentStatus.escrowed,
            createdAt := now, expiresAt := now + PAYMENT_EXPIRY }
        else s1.payments pid,
      events := EvmEvent.paymentDeposited paymentId sender (s.agentDevelopers agentId)
        agentId amount token :: s1.events }

/-- The storage write `payment.status = st` on the record with key
`paymentId` (the `Payment storage payment` reference of the source aliases
`payments[paymentId]`, so the status assignment updates that one mapping
entry in place). -/
def markStatus (s : EscrowState) (paymentId : Nat) (st : PaymentStatus) : EscrowState :=
  { s with
    payments := fun q => if q = paymentId then
        { s.payments paymentId with status := st }
      else s.payments q }

/-- Event emission: push onto the event log. -/
def pushEvent (s : EscrowState) (ev : EvmEvent) : EscrowState :=
  { s with events := ev :: s.events }

/-- releasePayment of AgentNexusEscrow.sol.  The `payment` storage alias
of the source is inlined as `s.payments paymentId`.  Note that the
platform fee is computed from the platformFeePercentage stored in the
state at the moment of the call (the Payment struct holds no fee field),
and that the fee transfer is skipped when the fee is zero, exactly as in
the source. -/
def releasePayment (s : EscrowState) (sender now paymentId : Nat) :
    Except EvmErr EscrowState :=
  if s.isOrchestrator sender = false then .error .missingRole
  else if (s.payments paymentId).status ≠ PaymentStatus.escrowed then .error .paymentNotInEscrow
  else if (s.payments paymentId).expiresAt < now then .error .paymentExpired
  else if UINT256_MOD ≤ (s.payments paymentId).amount * s.platformFeePercentage then
    .error .uintOverflow
  else
    erc20Transfer (markStatus s paymentId PaymentStatus.released)
      (s.payments paymentId).token escrowAddr (s.payments paymentId).developer
      ((s.payments paymentId).amount -
        (s.payments paymentId).amount * s.platformFeePercentage / 10000) >>= fun s2 =>
    (if (s.payments paymentId).amount * s.platformFeePercentage / 10000 ≠ 0 then
        erc20Transfer s2 (s.payments paymentId).token escrowAddr s.platformFeeRecipient
          ((s.payments paymentId).amount * s.platformFeePercentage / 10000)
      else .ok s2) >>= fun s3 =>
    .ok (pushEvent s3 (EvmEvent.paymentReleased paymentId (s.payments paymentId).developer
      ((s.payments paymentId).amount -
        (s.payments paymentId).amount * s.platformFeePercentage / 10000)
      ((s.payments paymentId).amount * s.platformFeePercentage / 10000)))

/-- refundPayment of AgentNexusEscrow.sol, the `payment` storage alias
inlined.  There is no expiry check: the only require is on the Escrowed
status; the full amount goes back to the payer. (`_now` is taken as a
parameter for interface uniformity and is deliberately unused, mirroring
the absence of any block.timestamp read.) -/
def refundPayment (s : EscrowState) (sender _now paymentId : Nat) :
    Except EvmErr EscrowState :=
  if s.isOrchestrator sender = false then .error .missingRole
  else if (s.payments paymentId).status ≠ PaymentStatus.escrowed then .error .paymentNotInEscrow
  else
    erc20Transfer (markStatus s paymentId PaymentStatus.refunded)
      (s.payments paymentId).token escrowAddr (s.payments paymentId).user
      (s.payments paymentId).amount >>= fun s2 =>
    .ok (pushEvent s2 (EvmEvent.paymentRefunded paymentId (s.payments paymentId).user
      (s.payments paymentId).amount))

/-- registerAgent of AgentNexusEscrow.sol. -/
def registerAgent (s : EscrowState) (sender agentId developer : Nat) :
    Except EvmErr EscrowState :=
  if s.isAdmin sender = false then .error .missingRole
  else if developer = 0 then .error .invalidDeveloper
  else .ok { s with
    agentDevelopers := fun a => if a = agentId then developer else s.agentDevelopers a,
    events := EvmEvent.agentRegistered agentId developer :: s.events }

/-- setSupportedToken of AgentNexusEscrow.sol. -/
def setSupportedToken (s : EscrowState) (sender token : Nat) (supported : Bool) :
    Except EvmErr EscrowState :=
  if s.isAdmin sender = false then .error .missingRole
  else .ok { s with
    supportedTokens := fun t => if t = token then supported else s.supportedTokens t,
    events := EvmEvent.tokenSupportUpdated token supported :: s.events }

/-- setPlatformFee of AgentNexusEscrow.sol: bounded by MAX_PLATFORM_FEE,
then overwrites the single stored fee percentage (existing Payment records
are untouched and hold no fee field). -/
def setPlatformFee (s : EscrowState) (sender newFeePercentage : Nat) :
    Except EvmErr EscrowState :=
  if s.isAdmin sender = false then .error .missingRole
  else if MAX_PLATFORM_FEE < newFeePercentage then .error .feeTooHigh
  else .ok { s with
    platformFeePercentage := newFeePercentage,
    events := EvmEvent.platformFeeUpdated newFeePercentage :: s.events }

/-
  Concrete example states used by witnesses and counterexamples:
  admin / orchestrator address 1, platform fee recipient 2, developer 3,
  agent 5 registered to developer 3, token 7 supported, payer 10 holding
  100000 units of token 7, initial fee 250 bps (as in the deployment
  tests, 2.5%).
-/

/-- Freshly deployed example state. -/
def initState : EscrowState :=
  { payments := fun _ => emptyPayment
    agentDevelopers := fun a => if a = 5 then 3 else 0
    supportedTokens := fun t => t == 7
    platformFeeRecipient := 2
    platformFeePercentage := 250
    isAdmin := fun a => a == 1
    isOrchestrator := fun a => a == 1
    balances := fun t h => if t = 7 ∧ h = 10 then 100000 else 0
    events := [] }

example : (depositPayment initState 10 0 1 5 10000 7).map
    (fun s => ((s.payments 1).status, s.balances 7 escrowAddr)) =
    .ok (PaymentStatus.escrowed, 10000) := rfl

/-- Example state holding one escrowed payment: hold id 1, payer 10,
developer 3, agent 5, amount 10000 of token 7, created at time 0 so it
expires at PAYMENT_EXPIRY; the escrow contract holds the 10000 tokens. -/
def escrowedState : EscrowState :=
  { initState with
    payments := fun pid => if pid = 1 then
        { user := 10, developer := 3, agentId := 5, amount := 10000, token := 7,
          status := PaymentStatus.escrowed, createdAt := 0, expiresAt := PAYMENT_EXPIRY }
      else emptyPayment
    balances := fun t h =>
      if t = 7 ∧ h = escrowAddr then 10000
      else if t = 7 ∧ h = 10 then 90000 else 0 }

/-- The state after the orchestrator releases hold 1 of `escrowedState`
at time 100. -/
def relState : EscrowState :=
  ((releasePayment escrowedState 1 100 1).toOption).getD initState

/-- The state after the orchestrator refunds hold 1 of `escrowedState`
at time 10^9, far past its expiry. -/
def refState : EscrowState :=
  ((refundPayment escrowedState 1 (10 ^ 9) 1).toOption).getD initState

/-
  Part 2: the Pipeline Orchestrator.  The repository declares only the
  a2a_pipelines table (src/unnamed/part_005): the orchestration logic
  itself is not present under src/, so the component is modelled from the
  spec (sections 4.2 and 8) and the claims about it are settled against
  this model.
-/

/-- Modelled from the spec: Pipeline status enum
`Created → Executing → (Completed | Failed | Cancelled)` of section 3;
the orchestration code is missing from src/. -/
inductive PipelineStatus where
  | createdPipe
  | executingPipe
  | completedPipe
  | failedPipe
  | cancelledPipe
deriving DecidableEq, Repr

/-- Modelled from the spec: one Step of a Pipeline with its bound Hold;
`stepDone` is the Step `Completed` flag and `holdStatus` the lifecycle
status of the Hold created for the step. -/
structure PipeStep where
  agentId : Nat
  cost : Nat
  stepDone : Bool
  holdStatus : PaymentStatus
deriving DecidableEq, Repr

/-- Modelled from the spec: the Pipeline record of section 3 — ordered
steps, revenue-share table (agent, basis points), total cost and overall
status. -/
structure Pipeline where
  steps : List PipeStep
  revenueShare : List (Nat × Nat)
  totalCost : Nat
  status : PipelineStatus
deriving DecidableEq, Repr

/-- Modelled from the spec: validation error taxonomy of section 7 for
createPipeline. -/
inductive PipelineErr where
  | emptySteps
  | unknownAgent
  | invalidRevenueShare
deriving DecidableEq, Repr

/-- Modelled from the spec: createPipeline of section 4.2 — validates
steps non-empty, every step agent registered, and revenue shares summing
to exactly 10000 bps, before any state is created; on success every
step's Hold is created Escrowed and the Pipeline starts in Created with
totalCost the sum of the step costs. -/
def createPipeline (registered : Nat → Bool) (stepSpecs : List (Nat × Nat))
    (shares : List (Nat × Nat)) : Except PipelineErr Pipeline :=
  if stepSpecs = [] then .error .emptySteps
  else if stepSpecs.any (fun sc => registered sc.1 = false) then .error .unknownAgent
  else if (shares.map Prod.snd).sum ≠ 10000 then .error .invalidRevenueShare
  else .ok
    { steps := stepSpecs.map (fun sc =>
        { agentId := sc.1, cost := sc.2, stepDone := false,
          holdStatus := PaymentStatus.escrowed })
      revenueShare := shares
      totalCost := (stepSpecs.map Prod.snd).sum
      status := PipelineStatus.createdPipe }

/-- Modelled from the spec: executePipeline of section 4.2.  Steps run
strictly in order against the execution collaborator's verdicts; on the
first failing step the orchestrator halts, marks the Pipeline Failed and
refunds every step's Hold (completed or not); when every step succeeds
the Pipeline completes and every Hold is released. -/
def executePipeline (p : Pipeline) (verdict : Nat → Bool) : Pipeline :=
  match (List.range p.steps.length).find? (fun i => verdict i = false) with
  | none =>
      { p with
        status := PipelineStatus.completedPipe
        steps := p.steps.map (fun st =>
          { st with stepDone := true, holdStatus := PaymentStatus.released }) }
  | some k =>
      { p with
        status := PipelineStatus.failedPipe
        steps := p.steps.enum.map (fun sti =>
          { sti.2 with stepDone := decide (sti.1 < k), holdStatus := PaymentStatus.refunded }) }

/-- Modelled from the spec: administrative cancellation of section 5 —
behaves like a step failure: refund every Hold and mark the Pipeline
Cancelled. -/
def cancelPipeline (p : Pipeline) : Pipeline :=
  { p with
    status := PipelineStatus.cancelledPipe
    steps := p.steps.map (fun st =>
      { st with holdStatus := PaymentStatus.refunded }) }

/-- Modelled from the spec: per-agent settlement payout of sections 4.2
and 8 — floor(totalCost * agentShareBps / 10000) for each entry of the
revenue-share table. -/
def pipelinePayouts (p : Pipeline) : List (Nat × Nat) :=
  p.revenueShare.map (fun ab => (ab.1, p.totalCost * ab.2 / 10000))

/-- Modelled from the spec: the platform share receives the floor-rounding
remainder of the per-agent payouts (section 8, revenue-share invariant). -/
def platformShare (p : Pipeline) : Nat :=
  p.totalCost - ((pipelinePayouts p).map Prod.snd).sum

example : (createPipeline (fun a => a ≤ 3) [(1, 100), (2, 500), (3, 400)]
    [(1, 2000), (2, 6000), (3, 2000)]).map Pipeline.status =
    .ok PipelineStatus.createdPipe := rfl

example :
    (createPipeline (fun a => a ≤ 3) [(1, 100), (2, 500), (3, 400)]
      [(1, 2000), (2, 6000), (3, 2000)]).map pipelinePayouts =
    .ok [(1, 200), (2, 600), (3, 200)] := rfl

/-- The pipeline of spec section 8 scenario B: three steps costing
100, 500 and 400 run by agents 1, 2 and 3 with shares 2000, 6000 and
2000 bps. -/
def scenarioBPipeline : Pipeline :=
  ((createPipeline (fun a => a ≤ 3) [(1, 100), (2, 500), (3, 400)]
      [(1, 2000), (2, 6000), (3, 2000)]).toOption).getD
    { steps := [], revenueShare := [], totalCost := 0,
      status := PipelineStatus.createdPipe }

/-
  Part 3: the Receipt subsystem, embedded from
  src/backend/src/services/ReceiptService.ts.  The receipt identifier is
  rcpt_ followed by the first 16 hex characters of the SHA-256 digest of
  the string  executionId ++ ":" ++ startTime-in-milliseconds , so the
  development carries an executable SHA-256 (FIPS 180-4) over byte lists,
  with 32-bit words represented as Nat reduced mod 2^32.
-/

def w32 (x : Nat) : Nat := x % (2 ^ 32)

def not32 (x : Nat) : Nat := x ^^^ (2 ^ 32 - 1)

def rotr32 (n x : Nat) : Nat := w32 ((x >>> n) ||| (x <<< (32 - n)))

def shaCh (x y z : Nat) : Nat := (x &&& y) ^^^ (not32 x &&& z)

def shaMaj (x y z : Nat) : Nat := (x &&& y) ^^^ (x &&& z) ^^^ (y &&& z)

def shaS0 (x : Nat) : Nat := rotr32 2 x ^^^ rotr32 13 x ^^^ rotr32 22 x

def shaS1 (x : Nat) : Nat := rotr32 6 x ^^^ rotr32 11 x ^^^ rotr32 25 x

def shaG0 (x : Nat) : Nat := rotr32 7 x ^^^ rotr32 18 x ^^^ (x >>> 3)

def shaG1 (x : Nat) : Nat := rotr32 17 x ^^^ rotr32 19 x ^^^ (x >>> 10)

/-- The first 64 primes, from which FIPS 180-4 derives the SHA-256
constants. -/
def sha64Primes : List Nat :=
  [2, 3, 5, 7, 11, 13, 17, 19, 23, 29, 31, 37, 41, 43, 47, 53,
   59, 61, 67, 71, 73, 79, 83, 89, 97, 101, 103, 107, 109, 113, 127, 131,
   137, 139, 149, 151, 157, 163, 167, 173, 179, 181, 191, 193, 197, 199, 211, 223,
   227, 229, 233, 239, 241, 251, 257, 263, 269, 271, 277, 281, 283, 293, 307, 311]

/-- Bisection for integer roots: narrows [lo, hi) keeping
f lo ≤ n < f hi, for monotone f. -/
def rootBisect (f : Nat → Nat) (n : Nat) : Nat → Nat → Nat → Nat
  | 0, lo, _ => lo
  | fuel + 1, lo, hi =>
      if hi ≤ lo + 1 then lo
      else
        let mid := (lo + hi) / 2
        if f mid ≤ n then rootBisect f n fuel mid hi
        else rootBisect f n fuel lo mid

/-- Integer cube root: the largest r with r^3 ≤ n (the fuel of 200
bisection steps covers every operand below 2^200). -/
def cubeRoot (n : Nat) : Nat := rootBisect (fun r => r * r * r) n 200 0 (n + 1)

/-- Integer square root by the same bisection. -/
def squareRoot (n : Nat) : Nat := rootBisect (fun r => r * r) n 200 0 (n + 1)

/-- The 64 SHA-256 round constants of FIPS 180-4: the first 32 bits of
the fractional parts of the cube roots of the first 64 primes,
i.e. floor(cbrt(p) * 2^32) mod 2^32 computed as an integer cube root of
p * 2^96. -/
def shaK : List Nat :=
  sha64Primes.map (fun p => cubeRoot (p * 2 ^ 96) % 2 ^ 32)

/-- The SHA-256 initial hash value of FIPS 180-4: the first 32 bits of
the fractional parts of the square roots of the first 8 primes. -/
def shaH0 : List Nat :=
  (sha64Primes.take 8).map (fun p => squareRoot (p * 2 ^ 64) % 2 ^ 32)

/-- Big-endian byte decomposition: the `k` bytes of `n`, most significant
first. -/
def beBytes (k n : Nat) : List Nat :=
  (List.range k).map (fun i => (n >>> (8 * (k - 1 - i))) % 256)

/-- Group a byte list into big-endian 32-bit words (four bytes per word). -/
def beWords : List Nat → List Nat
  | b0 :: b1 :: b2 :: b3 :: rest => (((b0 * 256 + b1) * 256 + b2) * 256 + b3) :: beWords rest
  | _ => []

/-- SHA-256 message padding: append 0x80, zero bytes to 56 mod 64, then
the 64-bit big-endian bit length of the original message. -/
def sha256Pad (msg : List Nat) : List Nat :=
  let zeros := (120 - ((msg.length + 1) % 64)) % 64
  msg ++ [0x80] ++ List.replicate zeros 0 ++ beBytes 8 (8 * msg.length)

/-- Split a word list into chunks of sixteen 32-bit words. -/
def shaBlocks (ws : List Nat) : List (List Nat) :=
  (List.range ((ws.length + 15) / 16)).map (fun i => (ws.drop (16 * i)).take 16)

/-- The 64-entry SHA-256 message schedule of one block. -/
def shaSchedule (block : List Nat) : List Nat :=
  (List.range 64).foldl
    (fun ws t =>
      if t < 16 then ws ++ [block.getD t 0]
      else ws ++ [w32 (shaG1 (ws.getD (t - 2) 0) + ws.getD (t - 7) 0 +
        shaG0 (ws.getD (t - 15) 0) + ws.getD (t - 16) 0)])
    []

/-- The eight SHA-256 working variables. -/
structure ShaState where
  a : Nat
  b : Nat
  c : Nat
  d : Nat
  e : Nat
  f : Nat
  g : Nat
  h : Nat
deriving DecidableEq, Repr

/-- One SHA-256 round. -/
def shaRound (ws : List Nat) (st : ShaState) (t : Nat) : ShaState :=
  let t1 := w32 (st.h + shaS1 st.e + shaCh st.e st.f st.g + shaK.getD t 0 + ws.getD t 0)
  let t2 := w32 (shaS0 st.a + shaMaj st.a st.b st.c)
  { a := w32 (t1 + t2), b := st.a, c := st.b, d := st.c,
    e := w32 (st.d + t1), f := st.e, g := st.f, h := st.g }

/-- SHA-256 compression of one 16-word block into the running hash. -/
def shaCompress (hv : List Nat) (block : List Nat) : List Nat :=
  let ws := shaSchedule block
  let init : ShaState :=
    { a := hv.getD 0 0, b := hv.getD 1 0, c := hv.getD 2 0, d := hv.getD 3 0,
      e := hv.getD 4 0, f := hv.getD 5 0, g := hv.getD 6 0, h := hv.getD 7 0 }
  let fin := (List.range 64).foldl (shaRound ws) init
  [w32 (hv.getD 0 0 + fin.a), w32 (hv.getD 1 0 + fin.b), w32 (hv.getD 2 0 + fin.c),
   w32 (hv.getD 3 0 + fin.d), w32 (hv.getD 4 0 + fin.e), w32 (hv.getD 5 0 + fin.f),
   w32 (hv.getD 6 0 + fin.g), w32 (hv.getD 7 0 + fin.h)]

/-- SHA-256 digest of a byte list, as 32 bytes. -/
def sha256Bytes (msg : List Nat) : List Nat :=
  let ws := beWords (sha256Pad msg)
  let hv := (shaBlocks ws).foldl shaCompress shaH0
  hv.foldr (fun w acc => beBytes 4 w ++ acc) []

/-- One lowercase hexadecimal digit. -/
def hexChar (n : Nat) : Char :=
  if n < 10 then Char.ofNat (48 + n) else Char.ofNat (87 + n)

/-- Lowercase hexadecimal rendering of a byte list. -/
def bytesToHex (bs : List Nat) : String :=
  String.mk (bs.foldr (fun b acc => hexChar (b / 16) :: hexChar (b % 16) :: acc) [])

/-- UTF-8 encoding of one character. -/
def utf8Char (c : Char) : List Nat :=
  let n := c.toNat
  if n < 0x80 then [n]
  else if n < 0x800 then [0xc0 + n / 64, 0x80 + n % 64]
  else if n < 0x10000 then [0xe0 + n / 4096, 0x80 + (n / 64) % 64, 0x80 + n % 64]
  else [0xf0 + n / 262144, 0x80 + (n / 4096) % 64, 0x80 + (n / 64) % 64, 0x80 + n % 64]

/-- UTF-8 bytes of a string (crypto.createHash hashes the UTF-8 encoding
of the input string). -/
def utf8Bytes (s : String) : List Nat :=
  (s.data.map utf8Char).flatten

/-- Lowercase hex SHA-256 digest of a string, as produced by
crypto.createHash followed by digest in hex. -/
def sha256Hex (s : String) : String :=
  bytesToHex (sha256Bytes (utf8Bytes s))

set_option maxRecDepth 100000 in
example : sha256Hex "abc" =
    "ba7816bf8f01cfea414140de5dae2223b00361a396177a9cb410ff61f20015ad" := by decide

/-- Execution status values of the Prisma Execution model consumed by
ReceiptService.ts. -/
inductive ExecStatus where
  | pendingE
  | runningE
  | completedE
  | failedE
  | cancelledE
deriving DecidableEq, Repr

/-- Receipt status values of the ExecutionReceipt type. -/
inductive ReceiptStatus where
  | successR
  | failedR
  | timeoutR
  | cancelledR
deriving DecidableEq, Repr

/-- The Execution row fields that ReceiptService.ts reads. `startTime` and
`endTime` are millisecond epoch timestamps (Date.getTime()); `duration`
is in milliseconds and optional as in the schema. -/
structure Execution where
  id : String
  startTime : Nat
  endTime : Option Nat
  status : ExecStatus
  userId : String
  agentId : String
  agentName : String
  duration : Option Nat
deriving DecidableEq, Repr

/-- mapStatus of ReceiptService.ts (default branch returns FAILED). -/
def mapStatus (st : ExecStatus) : ReceiptStatus :=
  match st with
  | .completedE => .successR
  | .failedE => .failedR
  | .cancelledE => .cancelledR
  | _ => .failedR

/-- unmapStatus of ReceiptService.ts. -/
def unmapStatus (st : ReceiptStatus) : ExecStatus :=
  match st with
  | .successR => .completedE
  | .failedR => .failedE
  | .timeoutR => .failedE
  | .cancelledR => .cancelledE

/-- generateReceiptId of ReceiptService.ts: rcpt_ followed by the first
16 hex characters of the SHA-256 digest of
executionId ++ ":" ++ startTime-in-milliseconds. -/
def generateReceiptId (e : Execution) : String :=
  let data := e.id ++ ":" ++ toString e.startTime
  let hash := sha256Hex data
  "rcpt_" ++ (hash.take 16)

/-- The ReceiptSummary fields produced by listReceipts in
ReceiptService.ts. -/
structure ReceiptSummary where
  receiptId : String
  executionId : String
  timestamp : Nat
  agentId : String
  agentName : String
  rstatus : ReceiptStatus
  durationMs : Nat
deriving DecidableEq, Repr

/-- generateReceipt of ReceiptService.ts, restricted to the fields the
claims are about: it refuses executions still in progress and otherwise
derives the receipt with the deterministic receipt id. -/
def generateReceipt (e : Execution) : Except String ReceiptSummary :=
  if e.status = ExecStatus.pendingE ∨ e.status = ExecStatus.runningE then
    .error "Execution still in progress"
  else
    .ok { receiptId := generateReceiptId e, executionId := e.id,
          timestamp := e.startTime, agentId := e.agentId, agentName := e.agentName,
          rstatus := mapStatus e.status, durationMs := e.duration.getD 0 }

/-- ReceiptQueryOptions of ExecutionReceipt.ts as consumed by
listReceipts. -/
structure ReceiptQueryOptions where
  userId : Option String
  agentId : Option String
  rstatus : Option ReceiptStatus
  startDate : Option Nat
  endDate : Option Nat
  limit : Option Nat
  offset : Option Nat
deriving DecidableEq, Repr

/-- The query options with no filter set. -/
def emptyQuery : ReceiptQueryOptions :=
  { userId := none, agentId := none, rstatus := none, startDate := none,
    endDate := none, limit := none, offset := none }

/-- JavaScript `x || d` on an optional number: the default applies both
when the field is absent and when it is 0 (0 is falsy). -/
def jsOr (x : Option Nat) (d : Nat) : Nat :=
  match x with
  | none => d
  | some 0 => d
  | some n => n

/-- JavaScript truthiness of an optional string filter: an absent or
empty string applies no filter. -/
def strFilter (f : Option String) (v : String) : Bool :=
  match f with
  | none => true
  | some u => if u = "" then true else u == v

/-- The effective Prisma `where` of listReceipts.  The source builds
`where: { ...where, status: { notIn: [PENDING, RUNNING] } }`: the literal
status key written after the spread overwrites the `where.status` entry
that line 112 set from the caller's options, so the caller's status
filter is silently discarded and only the userId, agentId and startTime
range filters apply, always conjoined with the fixed not-in-progress
condition. -/
def matchesQuery (o : ReceiptQueryOptions) (e : Execution) : Bool :=
  strFilter o.userId e.userId &&
  strFilter o.agentId e.agentId &&
  (match o.startDate with
   | none => true
   | some d => decide (d ≤ e.startTime)) &&
  (match o.endDate with
   | none => true
   | some d => decide (e.startTime ≤ d)) &&
  !(e.status == ExecStatus.pendingE) && !(e.status == ExecStatus.runningE)

/-- Insertion into a list kept sorted by startTime descending. -/
def insertDesc (e : Execution) : List Execution → List Execution
  | [] => [e]
  | x :: xs => if x.startTime < e.startTime then e :: x :: xs else x :: insertDesc e xs

/-- Prisma orderBy startTime desc, as an insertion sort. -/
def sortByStartDesc (es : List Execution) : List Execution :=
  es.foldr insertDesc []

/-- listReceipts of ReceiptService.ts over an in-memory execution store:
filter by the query options (plus the fixed not-in-progress condition),
order by startTime descending, then apply `skip: offset || 0` and
`take: limit || 50`, and map each row to its summary with the recomputed
deterministic receipt id. -/
def listReceipts (store : List Execution) (o : ReceiptQueryOptions) :
    List ReceiptSummary :=
  let filtered := store.filter (matchesQuery o)
  let sorted := sortByStartDesc filtered
  let paged := (sorted.drop (jsOr o.offset 0)).take (jsOr o.limit 50)
  paged.map (fun e =>
    { receiptId := generateReceiptId e, executionId := e.id,
      timestamp := e.startTime, agentId := e.agentId, agentName := e.agentName,
      rstatus := mapStatus e.status, durationMs := e.duration.getD 0 })

/-- An example completed execution. -/
def exampleExec : Execution :=
  { id := "x", startTime := 1000, endTime := some 2000,
    status := ExecStatus.completedE, userId := "u", agentId := "a",
    agentName := "Agent", duration := some 1000 }

/-- An execution with the same id and the same terminal (end) timestamp
as `exampleExec` but a different start timestamp. -/
def execB : Execution :=
  { exampleExec with startTime := 1500, duration := some 500 }

/-- An execution with the same id and the same start timestamp as
`exampleExec` but a different terminal timestamp and outcome. -/
def execC : Execution :=
  { exampleExec with endTime := some 3000, status := ExecStatus.failedE }

set_option maxRecDepth 100000 in
example : (listReceipts [exampleExec] emptyQuery).length = 1 := by decide

/-
  Part 4: helper lemmas.
-/

/-- Inversion for a successful Except bind. -/
theorem exceptBind_ok {ε α β : Type} {x : Except ε α} {f : α → Except ε β} {b : β}
    (h : (x >>= f) = .ok b) : ∃ a, x = .ok a ∧ f a = .ok b := by
  cases x with
  | error e => simp [Bind.bind, Except.bind] at h
  | ok a => exact ⟨a, rfl, by simpa [Bind.bind, Except.bind] using h⟩

/-- A successful ERC20 transfer changes only the balance map. -/
theorem erc20Transfer_ok_fields {s : EscrowState} {t a b amt : Nat} {s1 : EscrowState}
    (h : erc20Transfer s t a b amt = .ok s1) :
    s1.payments = s.payments ∧ s1.agentDevelopers = s.agentDevelopers ∧
    s1.supportedTokens = s.supportedTokens ∧
    s1.platformFeeRecipient = s.platformFeeRecipient ∧
    s1.platformFeePercentage = s.platformFeePercentage ∧
    s1.isAdmin = s.isAdmin ∧ s1.isOrchestrator = s.isOrchestrator ∧
    s1.events = s.events := by
  unfold erc20Transfer at h
  split at h
  · cases h
  · cases h
    exact ⟨rfl, rfl, rfl, rfl, rfl, rfl, rfl, rfl⟩

/-- Balance bookkeeping of a successful ERC20 transfer between two
distinct holders. -/
theorem erc20Transfer_ok_balances {s : EscrowState} {t a b amt : Nat} {s1 : EscrowState}
    (h : erc20Transfer s t a b amt = .ok s1) (hab : a ≠ b) :
    s1.balances t b = s.balances t b + amt ∧
    s1.balances t a = s.balances t a - amt ∧
    amt ≤ s.balances t a ∧
    (∀ t2 h2, h2 ≠ a → h2 ≠ b → s1.balances t2 h2 = s.balances t2 h2) := by
  unfold erc20Transfer at h
  split at h
  · cases h
  next hge =>
    cases h
    have hba : b ≠ a := Ne.symm hab
    refine ⟨?_, ?_, by omega, ?_⟩
    · simp [setBal, hab, hba]
    · simp [setBal, hab, hba]
    · intro t2 h2 h2a h2b
      simp [setBal, h2a, h2b]

/-- Full inversion of a successful releasePayment: the role and status
checks passed, the expiry had not passed, and the final state is built
from the status write, the developer transfer, the conditional fee
transfer and the event, with both monetary amounts computed from the
platformFeePercentage stored at the moment of the call. -/
theorem releasePayment_ok_destruct {s : EscrowState} {sender now pid : Nat}
    {s' : EscrowState} (h : releasePayment s sender now pid = .ok s') :
    s.isOrchestrator sender = true ∧
    (s.payments pid).status = PaymentStatus.escrowed ∧
    now ≤ (s.payments pid).expiresAt ∧
    ∃ s2 s3,
      erc20Transfer (markStatus s pid PaymentStatus.released)
        (s.payments pid).token escrowAddr (s.payments pid).developer
        ((s.payments pid).amount - (s.payments pid).amount * s.platformFeePercentage / 10000)
        = .ok s2 ∧
      (if (s.payments pid).amount * s.platformFeePercentage / 10000 ≠ 0 then
          erc20Transfer s2 (s.payments pid).token escrowAddr s.platformFeeRecipient
            ((s.payments pid).amount * s.platformFeePercentage / 10000)
        else .ok s2) = .ok s3 ∧
      s' = pushEvent s3 (EvmEvent.paymentReleased pid (s.payments pid).developer
          ((s.payments pid).amount - (s.payments pid).amount * s.platformFeePercentage / 10000)
          ((s.payments pid).amount * s.platformFeePercentage / 10000)) := by
  unfold releasePayment at h
  split at h
  · cases h
  next hrole =>
    split at h
    · cases h
    next hstatus =>
      split at h
      · cases h
      next hexp =>
        split at h
        · cases h
        next hovf =>
          obtain ⟨s2, h2, h⟩ := exceptBind_ok h
          obtain ⟨s3, h3, h⟩ := exceptBind_ok h
          cases h
          refine ⟨by simpa using hrole, by simpa using hstatus, by omega, s2, s3, h2, h3, rfl⟩

/-- Full inversion of a successful refundPayment: only the role and
status checks guard it (the expiry is never consulted), and the full
original amount is transferred back to the recorded payer. -/
theorem refundPayment_ok_destruct {s : EscrowState} {sender nowp pid : Nat}
    {s' : EscrowState} (h : refundPayment s sender nowp pid = .ok s') :
    s.isOrchestrator sender = true ∧
    (s.payments pid).status = PaymentStatus.escrowed ∧
    ∃ s2,
      erc20Transfer (markStatus s pid PaymentStatus.refunded)
        (s.payments pid).token escrowAddr (s.payments pid).user (s.payments pid).amount
        = .ok s2 ∧
      s' = pushEvent s2
        (EvmEvent.paymentRefunded pid (s.payments pid).user (s.payments pid).amount) := by
  unfold refundPayment at h
  split at h
  · cases h
  next hrole =>
    split at h
    · cases h
    next hstatus =>
      obtain ⟨s2, h2, h⟩ := exceptBind_ok h
      cases h
      exact ⟨by simpa using hrole, by simpa using hstatus, s2, h2, rfl⟩

/-- After a successful release, the hold's status reads Released and the
role tables are unchanged. -/
theorem releasePayment_ok_after {s : EscrowState} {sender now pid : Nat}
    {s' : EscrowState} (h : releasePayment s sender now pid = .ok s') :
    (s'.payments pid).status = PaymentStatus.released ∧
    s'.isOrchestrator = s.isOrchestrator := by
  obtain ⟨-, -, -, s2, s3, h2, h3, rfl⟩ := releasePayment_ok_destruct h
  have f2 := erc20Transfer_ok_fields h2
  have f3 : s3.payments = s2.payments ∧ s3.isOrchestrator = s2.isOrchestrator := by
    by_cases hf : (s.payments pid).amount * s.platformFeePercentage / 10000 ≠ 0
    · rw [if_pos hf] at h3
      have f := erc20Transfer_ok_fields h3
      exact ⟨f.1, f.2.2.2.2.2.2.1⟩
    · rw [if_neg hf] at h3
      cases h3
      exact ⟨rfl, rfl⟩
  constructor
  · show (s3.payments pid).status = PaymentStatus.released
    rw [f3.1, f2.1]
    simp [markStatus]
  · show s3.isOrchestrator = s.isOrchestrator
    rw [f3.2, f2.2.2.2.2.2.2.1]
    simp [markStatus]

/-- After a successful refund, the hold's status reads Refunded and the
role tables are unchanged. -/
theorem refundPayment_ok_after {s : EscrowState} {sender nowp pid : Nat}
    {s' : EscrowState} (h : refundPayment s sender nowp pid = .ok s') :
    (s'.payments pid).status = PaymentStatus.refunded ∧
    s'.isOrchestrator = s.isOrchestrator := by
  obtain ⟨-, -, s2, h2, rfl⟩ := refundPayment_ok_destruct h
  have f2 := erc20Transfer_ok_fields h2
  constructor
  · show (s2.payments pid).status = PaymentStatus.refunded
    rw [f2.1]
    simp [markStatus]
  · show s2.isOrchestrator = s.isOrchestrator
    rw [f2.2.2.2.2.2.2.1]
    simp [markStatus]

/-- releasePayment on a hold whose status is not Escrowed reverts with
the single generic not-in-escrow reason. -/
theorem releasePayment_not_escrowed {s : EscrowState} {sender now pid : Nat}
    (hrole : s.isOrchestrator sender = true)
    (hst : (s.payments pid).status ≠ PaymentStatus.escrowed) :
    releasePayment s sender now pid = .error .paymentNotInEscrow := by
  unfold releasePayment
  rw [if_neg (by simp [hrole]), if_pos hst]

/-- refundPayment on a hold whose status is not Escrowed reverts with the
same generic not-in-escrow reason. -/
theorem refundPayment_not_escrowed {s : EscrowState} {sender nowp pid : Nat}
    (hrole : s.isOrchestrator sender = true)
    (hst : (s.payments pid).status ≠ PaymentStatus.escrowed) :
    refundPayment s sender nowp pid = .error .paymentNotInEscrow := by
  unfold refundPayment
  rw [if_neg (by simp [hrole]), if_pos hst]

/-
  Part 5: the claims.
-/

/-- Claim C1, counterexample.  Deposit hold 1 at fee 250 bps, change the
platform fee to 500 bps, then release: the platform-fee recipient
(address 2) receives 500, the fee computed from the release-time 500 bps,
whereas the identical trace without the intervening setPlatformFee pays
250 — so the fee applied to a hold is not the one in effect when it was
escrowed, and a setPlatformFee between deposit and release does change
the fee applied. -/
theorem claim_C1_counterexample :
    ((depositPayment initState 10 0 1 5 10000 7).bind (fun s1 =>
      (setPlatformFee s1 1 500).bind (fun s2 =>
        (releasePayment s2 1 100 1).map (fun s3 => s3.balances 7 2)))) = .ok 500 ∧
    ((depositPayment initState 10 0 1 5 10000 7).bind (fun s1 =>
      (releasePayment s1 1 100 1).map (fun s3 => s3.balances 7 2))) = .ok 250 ∧
    initState.platformFeePercentage = 250 ∧ (500 : Nat) ≠ 250 :=
  ⟨rfl, rfl, rfl, by decide⟩

/-- Claim C1, amended: the platform-fee basis points used when release
computes the payout are the platformFeePercentage stored in the contract
at the moment of the release call (the Hold snapshots no fee at deposit),
so a setPlatformFee between deposit and release does change the fee
applied to that Hold.  Stated via the emitted PaymentReleased event,
whose amounts are exactly the two transfers performed. -/
theorem claim_C1_release_time_fee : ∀ (s : EscrowState) (sender now pid : Nat)
    (s' : EscrowState),
    releasePayment s sender now pid = .ok s' →
    s'.events.head? = some (EvmEvent.paymentReleased pid (s.payments pid).developer
      ((s.payments pid).amount - (s.payments pid).amount * s.platformFeePercentage / 10000)
      ((s.payments pid).amount * s.platformFeePercentage / 10000)) := by
  intro s sender now pid s' h
  obtain ⟨-, -, -, s2, s3, h2, h3, rfl⟩ := releasePayment_ok_destruct h
  simp [pushEvent]

/-- Claim C1, witness: releasing the escrowed example hold emits the
payout computed from the release-time fee of 250 bps. -/
theorem claim_C1_witness :
    relState.events.head? = some (EvmEvent.paymentReleased 1
      (escrowedState.payments 1).developer
      ((escrowedState.payments 1).amount -
        (escrowedState.payments 1).amount * escrowedState.platformFeePercentage / 10000)
      ((escrowedState.payments 1).amount * escrowedState.platformFeePercentage / 10000)) :=
  claim_C1_release_time_fee escrowedState 1 100 1 relState rfl

/-- Claim C2, counterexample.  After deposit and a successful release of
hold 1, a second release reverts with the contract's single generic
"Payment not in escrow" reason — the very same error releasePayment
returns for a hold id that was never escrowed at all (id 99) — so no
distinct AlreadyTerminal error exists in the code. -/
theorem claim_C2_counterexample :
    ((depositPayment initState 10 0 1 5 10000 7).bind (fun s1 =>
      (releasePayment s1 1 100 1).bind (fun s2 =>
        releasePayment s2 1 200 1))) = .error .paymentNotInEscrow ∧
    releasePayment initState 1 0 99 = .error .paymentNotInEscrow :=
  ⟨rfl, rfl⟩

/-- Claim C2, amended: release and refund are mutually exclusive and
exactly-once — after either succeeds on a hold id, any subsequent release
or refund call on that id fails (with the contract's NotEscrowed revert
"Payment not in escrow"; the code reuses this one error where the spec
names AlreadyTerminal), and the failing call is a revert, so it transfers
no funds and changes no state. -/
theorem claim_C2_exactly_once : ∀ (s : EscrowState) (sender now pid : Nat)
    (s' : EscrowState) (sender2 now2 : Nat),
    s.isOrchestrator sender2 = true →
    (releasePayment s sender now pid = .ok s' ∨ refundPayment s sender now pid = .ok s') →
    releasePayment s' sender2 now2 pid = .error .paymentNotInEscrow ∧
    refundPayment s' sender2 now2 pid = .error .paymentNotInEscrow := by
  intro s sender now pid s' sender2 now2 hrole2 h
  have key : (s'.payments pid).status ≠ PaymentStatus.escrowed ∧
      s'.isOrchestrator sender2 = true := by
    rcases h with h | h
    · have a := releasePayment_ok_after h
      exact ⟨by rw [a.1]; decide, by rw [a.2]; exact hrole2⟩
    · have a := refundPayment_ok_after h
      exact ⟨by rw [a.1]; decide, by rw [a.2]; exact hrole2⟩
  exact ⟨releasePayment_not_escrowed key.2 key.1, refundPayment_not_escrowed key.2 key.1⟩

/-- Claim C2, witness: on the concrete released example hold, both a
repeat release and a refund fail with the not-in-escrow revert. -/
theorem claim_C2_witness :
    releasePayment relState 1 200 1 = .error .paymentNotInEscrow ∧
    refundPayment relState 1 200 1 = .error .paymentNotInEscrow :=
  claim_C2_exactly_once escrowedState 1 100 1 relState 1 200 rfl (Or.inl rfl)

/-- Claim C3: a successful release of a hold of amount A at fee f bps
pays the developer exactly A - floor(A*f/10000) and the platform-fee
recipient exactly floor(A*f/10000), and the two payouts sum back to A
exactly (integer floor arithmetic, no rounding leakage). The fee bound
f ≤ 10000 holds for every reachable state since the constructor and
setPlatformFee cap the fee at MAX_PLATFORM_FEE = 1000; the distinctness
hypotheses separate the three balance cells involved. -/
theorem claim_C3_fee_arithmetic : ∀ (s : EscrowState) (sender now pid : Nat)
    (s' : EscrowState),
    releasePayment s sender now pid = .ok s' →
    s.platformFeePercentage ≤ 10000 →
    (s.payments pid).developer ≠ s.platformFeeRecipient →
    (s.payments pid).developer ≠ escrowAddr →
    s.platformFeeRecipient ≠ escrowAddr →
    s'.balances (s.payments pid).token (s.payments pid).developer =
      s.balances (s.payments pid).token (s.payments pid).developer +
        ((s.payments pid).amount - (s.payments pid).amount * s.platformFeePercentage / 10000) ∧
    s'.balances (s.payments pid).token s.platformFeeRecipient =
      s.balances (s.payments pid).token s.platformFeeRecipient +
        (s.payments pid).amount * s.platformFeePercentage / 10000 ∧
    ((s.payments pid).amount - (s.payments pid).amount * s.platformFeePercentage / 10000) +
      (s.payments pid).amount * s.platformFeePercentage / 10000 = (s.payments pid).amount := by
  intro s sender now pid s' h hf hdr hde hre
  obtain ⟨-, -, -, s2, s3, h2, h3, rfl⟩ := releasePayment_ok_destruct h
  have hfee_le : (s.payments pid).amount * s.platformFeePercentage / 10000 ≤
      (s.payments pid).amount := by
    calc (s.payments pid).amount * s.platformFeePercentage / 10000
        ≤ (s.payments pid).amount * 10000 / 10000 :=
          Nat.div_le_div_right (Nat.mul_le_mul_left _ hf)
      _ = (s.payments pid).amount := Nat.mul_div_cancel _ (by omega)
  have hmb : (markStatus s pid PaymentStatus.released).balances = s.balances := rfl
  have b2 := erc20Transfer_ok_balances h2 (Ne.symm hde)
  rw [hmb] at b2
  have f3 : s3.balances (s.payments pid).token (s.payments pid).developer =
        s2.balances (s.payments pid).token (s.payments pid).developer ∧
      s3.balances (s.payments pid).token s.platformFeeRecipient =
        s2.balances (s.payments pid).token s.platformFeeRecipient +
          (s.payments pid).amount * s.platformFeePercentage / 10000 := by
    by_cases hz : (s.payments pid).amount * s.platformFeePercentage / 10000 ≠ 0
    · rw [if_pos hz] at h3
      have b3 := erc20Transfer_ok_balances h3 (Ne.symm hre)
      exact ⟨b3.2.2.2 _ _ hde hdr, b3.1⟩
    · rw [if_neg hz] at h3
      cases h3
      rw [not_ne_iff] at hz
      rw [hz]
      exact ⟨rfl, rfl⟩
  have hrd : s.platformFeeRecipient ≠ (s.payments pid).developer := Ne.symm hdr
  refine ⟨?_, ?_, by omega⟩
  · show s3.balances (s.payments pid).token (s.payments pid).developer = _
    rw [f3.1, b2.1]
  · show s3.balances (s.payments pid).token s.platformFeeRecipient = _
    rw [f3.2, b2.2.2.2 _ _ hre hrd]

/-- Claim C3, witness: the scenario of spec section 8 — amount 10000 at
fee 250 bps releases 9750 to the developer and 250 to the platform,
summing exactly to 10000. -/
theorem claim_C3_witness :
    relState.balances (escrowedState.payments 1).token (escrowedState.payments 1).developer =
      escrowedState.balances (escrowedState.payments 1).token
        (escrowedState.payments 1).developer +
        ((escrowedState.payments 1).amount -
          (escrowedState.payments 1).amount * escrowedState.platformFeePercentage / 10000) ∧
    relState.balances (escrowedState.payments 1).token escrowedState.platformFeeRecipient =
      escrowedState.balances (escrowedState.payments 1).token
        escrowedState.platformFeeRecipient +
        (escrowedState.payments 1).amount * escrowedState.platformFeePercentage / 10000 ∧
    ((escrowedState.payments 1).amount -
        (escrowedState.payments 1).amount * escrowedState.platformFeePercentage / 10000) +
      (escrowedState.payments 1).amount * escrowedState.platformFeePercentage / 10000 =
      (escrowedState.payments 1).amount :=
  claim_C3_fee_arithmetic escrowedState 1 100 1 relState rfl (by decide) (by decide)
    (by decide) (by decide)

/-- Claim C6, counterexample.  A deposit with an unused hold id (1), a
registered agent (5) and a positive amount (10000) nevertheless fails —
with the token-not-supported revert — when the token (8) is not on the
supported-token list, so the claim's precondition list is incomplete. -/
theorem claim_C6_counterexample :
    (initState.payments 1).user = 0 ∧
    initState.agentDevelopers 5 ≠ 0 ∧
    (10000 : Nat) ≠ 0 ∧
    initState.supportedTokens 8 = false ∧
    depositPayment initState 10 0 1 5 10000 8 = .error .tokenNotSupported :=
  ⟨rfl, by decide, by decide, rfl, rfl⟩

/-- Claim C6, amended: deposit with an unused holdId, a registered
agentId, a positive amount AND a supported token creates a Hold in status
Escrowed with expiry = creation time + the fixed 7-day window (provided
the payer's token transfer into escrow succeeds and the expiry sum does
not overflow uint256); with a supported token, deposit fails with the
duplicate-hold revert when the holdId already exists, the unknown-agent
revert when the agent is unregistered, and the invalid-amount revert when
the amount is zero (a uint256 amount ≤ 0 means amount = 0); each failing
require reverts before any state change. -/
theorem claim_C6_deposit : ∀ (s : EscrowState) (sender now pid agentId amount token : Nat),
    (s.supportedTokens token = true →
      (s.payments pid).user = 0 →
      s.agentDevelopers agentId ≠ 0 →
      amount ≠ 0 →
      now + PAYMENT_EXPIRY < UINT256_MOD →
      amount ≤ s.balances token sender →
      (depositPayment s sender now pid agentId amount token).map (fun t => t.payments pid) =
        .ok { user := sender, developer := s.agentDevelopers agentId, agentId := agentId,
              amount := amount, token := token, status := PaymentStatus.escrowed,
              createdAt := now, expiresAt := now + PAYMENT_EXPIRY }) ∧
    (s.supportedTokens token = true →
      (s.payments pid).user ≠ 0 →
      depositPayment s sender now pid agentId amount token = .error .paymentAlreadyExists) ∧
    (s.supportedTokens token = true →
      (s.payments pid).user = 0 →
      s.agentDevelopers agentId = 0 →
      depositPayment s sender now pid agentId amount token = .error .agentNotRegistered) ∧
    (s.supportedTokens token = true →
      (s.payments pid).user = 0 →
      s.agentDevelopers agentId ≠ 0 →
      amount = 0 →
      depositPayment s sender now pid agentId amount token = .error .amountNotPositive) := by
  intro s sender now pid agentId amount token
  refine ⟨?_, ?_, ?_, ?_⟩
  · intro hsupp hdup hag ham hovf hbal
    unfold depositPayment
    rw [if_neg (by simp [hsupp]), if_neg (by simp [hdup]), if_neg hag, if_neg ham,
      if_neg (by omega)]
    unfold erc20Transfer
    rw [if_neg (by omega)]
    simp [Bind.bind, Except.bind, Except.map]
  · intro hsupp hdup
    unfold depositPayment
    rw [if_neg (by simp [hsupp]), if_pos hdup]
  · intro hsupp hdup hag
    unfold depositPayment
    rw [if_neg (by simp [hsupp]), if_neg (by simp [hdup]), if_pos hag]
  · intro hsupp hdup hag ham
    unfold depositPayment
    rw [if_neg (by simp [hsupp]), if_neg (by simp [hdup]), if_neg hag, if_pos ham]

/-- Claim C6, witness: the concrete deposit of 10000 of supported token 7
against agent 5 creates the escrowed hold with expiry 0 + 604800, and the
concrete failure cases each return their revert reason. -/
theorem claim_C6_witness :
    ((depositPayment initState 10 0 1 5 10000 7).map (fun t => t.payments 1) =
      .ok { user := 10, developer := initState.agentDevelopers 5, agentId := 5,
            amount := 10000, token := 7, status := PaymentStatus.escrowed,
            createdAt := 0, expiresAt := 0 + PAYMENT_EXPIRY }) ∧
    depositPayment escrowedState 10 0 1 5 10000 7 = .error .paymentAlreadyExists ∧
    depositPayment initState 10 0 2 6 10000 7 = .error .agentNotRegistered ∧
    depositPayment initState 10 0 2 5 0 7 = .error .amountNotPositive :=
  ⟨(claim_C6_deposit initState 10 0 1 5 10000 7).1 rfl rfl (by decide) (by decide)
      (by decide) (by decide),
   (claim_C6_deposit escrowedState 10 0 1 5 10000 7).2.1 rfl (by decide),
   (claim_C6_deposit initState 10 0 2 6 10000 7).2.2.1 rfl rfl rfl,
   (claim_C6_deposit initState 10 0 2 5 0 7).2.2.2 rfl rfl (by decide) rfl⟩

/-- Claim C7: (1) a successful refund of an escrowed hold — at any call
time, the expiry timestamp is never consulted — marks it Refunded and
returns the full original amount to the payer with no fee deducted;
(2) refund in fact succeeds from any state where the caller is the
orchestrator, the hold is Escrowed and the escrow holds the funds, for
every call time including times past expiry; (3) release of the same
escrowed hold fails with the payment-expired revert whenever the call
time is past the hold's expiry. -/
theorem claim_C7_refund_ignores_expiry :
    (∀ (s : EscrowState) (sender nowp pid : Nat) (s' : EscrowState),
      refundPayment s sender nowp pid = .ok s' →
      (s.payments pid).user ≠ escrowAddr →
      (s'.payments pid).status = PaymentStatus.refunded ∧
      s'.balances (s.payments pid).token (s.payments pid).user =
        s.balances (s.payments pid).token (s.payments pid).user + (s.payments pid).amount ∧
      s'.events.head? = some (EvmEvent.paymentRefunded pid (s.payments pid).user
        (s.payments pid).amount)) ∧
    (∀ (s : EscrowState) (sender nowp pid : Nat),
      s.isOrchestrator sender = true →
      (s.payments pid).status = PaymentStatus.escrowed →
      (s.payments pid).amount ≤ s.balances (s.payments pid).token escrowAddr →
      ∃ s', refundPayment s sender nowp pid = .ok s') ∧
    (∀ (s : EscrowState) (sender now pid : Nat),
      s.isOrchestrator sender = true →
      (s.payments pid).status = PaymentStatus.escrowed →
      (s.payments pid).expiresAt < now →
      releasePayment s sender now pid = .error .paymentExpired) := by
  refine ⟨?_, ?_, ?_⟩
  · intro s sender nowp pid s' h huser
    obtain ⟨-, -, s2, h2, rfl⟩ := refundPayment_ok_destruct h
    have f2 := erc20Transfer_ok_fields h2
    have b2 := erc20Transfer_ok_balances h2 (Ne.symm huser)
    have hmb : (markStatus s pid PaymentStatus.refunded).balances = s.balances := rfl
    rw [hmb] at b2
    refine ⟨?_, b2.1, by simp [pushEvent]⟩
    show (s2.payments pid).status = _
    rw [f2.1]
    simp [markStatus]
  · intro s sender nowp pid hrole hst hbal
    unfold refundPayment
    rw [if_neg (by simp [hrole]), if_neg (by simp [hst])]
    unfold erc20Transfer
    rw [if_neg (by simpa [markStatus] using Nat.not_lt.mpr hbal)]
    exact ⟨_, rfl⟩
  · intro s sender now pid hrole hst hexp
    unfold releasePayment
    rw [if_neg (by simp [hrole]), if_neg (by simp [hst]), if_pos hexp]

/-- Claim C7, witness: refunding the example escrowed hold at time 10^9 —
far past its expiry of 604800 — succeeds, marks it Refunded and returns
the full 10000 to payer 10, while release at the same time fails with the
payment-expired revert. -/
theorem claim_C7_witness :
    (refState.payments 1).status = PaymentStatus.refunded ∧
    refState.balances (escrowedState.payments 1).token (escrowedState.payments 1).user =
      escrowedState.balances (escrowedState.payments 1).token
        (escrowedState.payments 1).user + (escrowedState.payments 1).amount ∧
    refState.events.head? = some (EvmEvent.paymentRefunded 1
      (escrowedState.payments 1).user (escrowedState.payments 1).amount) ∧
    PAYMENT_EXPIRY < 10 ^ 9 ∧
    releasePayment escrowedState 1 (10 ^ 9) 1 = .error .paymentExpired := by
  have a := claim_C7_refund_ignores_expiry.1 escrowedState 1 (10 ^ 9) 1 refState rfl
    (by decide)
  exact ⟨a.1, a.2.1, a.2.2, by decide,
    claim_C7_refund_ignores_expiry.2.2 escrowedState 1 (10 ^ 9) 1 rfl rfl (by decide)⟩

/-- Claim C10: depositPayment checks the administrator-maintained
supported-token list first: when the token is not supported the deposit
reverts with the token-not-supported reason — before any state change —
for every state and argument list, in particular even when the hold id is
unused, the agent is registered and the amount is positive. -/
theorem claim_C10_unsupported_token : ∀ (s : EscrowState)
    (sender now pid agentId amount token : Nat),
    s.supportedTokens token = false →
    depositPayment s sender now pid agentId amount token = .error .tokenNotSupported := by
  intro s sender now pid agentId amount token hsupp
  unfold depositPayment
  rw [if_pos hsupp]

/-- Claim C10, witness: token 8 is not supported in the example state,
and the deposit that is otherwise fully valid (unused hold id 1,
registered agent 5, amount 10000 > 0, sufficient balance) fails with the
token-not-supported revert. -/
theorem claim_C10_witness :
    initState.supportedTokens 8 = false ∧
    (initState.payments 1).user = 0 ∧
    initState.agentDevelopers 5 = 3 ∧
    depositPayment initState 10 0 1 5 10000 8 = .error .tokenNotSupported :=
  ⟨rfl, rfl, rfl, claim_C10_unsupported_token initState 10 0 1 5 10000 8 rfl⟩

/-- Claim C4: every terminal pipeline settlement is all-or-nothing.  An
executePipeline run ends either Completed with every step marked
Completed and every bound hold Released, or Failed with every bound hold
Refunded; an administrative cancellation ends Cancelled with every bound
hold Refunded.  No terminal pipeline mixes released and refunded (or
unsettled) step holds.  (The orchestrator is modelled from the spec:
its code is not present under src/.) -/
theorem claim_C4_all_or_nothing :
    (∀ (p : Pipeline) (verdict : Nat → Bool),
      ((executePipeline p verdict).status = PipelineStatus.completedPipe ∧
        (executePipeline p verdict).steps.all
          (fun st => st.stepDone && (st.holdStatus == PaymentStatus.released)) = true) ∨
      ((executePipeline p verdict).status = PipelineStatus.failedPipe ∧
        (executePipeline p verdict).steps.all
          (fun st => st.holdStatus == PaymentStatus.refunded) = true)) ∧
    (∀ p : Pipeline,
      (cancelPipeline p).status = PipelineStatus.cancelledPipe ∧
      (cancelPipeline p).steps.all
        (fun st => st.holdStatus == PaymentStatus.refunded) = true) := by
  constructor
  · intro p verdict
    unfold executePipeline
    cases hf : (List.range p.steps.length).find? (fun i => verdict i = false) with
    | none =>
        left
        exact ⟨rfl, by simp [List.all_eq_true]⟩
    | some k =>
        right
        refine ⟨rfl, ?_⟩
        simp only [List.all_eq_true, List.mem_map, Prod.exists]
        rintro x ⟨i, st, hmem, rfl⟩
        rfl
  · intro p
    exact ⟨rfl, by simp [cancelPipeline, List.all_eq_true]⟩

/-- Superadditivity of Nat floor division over a list sum. -/
theorem list_sum_div_le (l : List Nat) (d : Nat) :
    (l.map (fun x => x / d)).sum ≤ l.sum / d := by
  induction l with
  | nil => simp
  | cons a t ih =>
      simp only [List.map_cons, List.sum_cons]
      exact le_trans (Nat.add_le_add_left ih _) (Nat.add_div_le_add_div a t.sum d)

/-- The per-agent floor payouts of a revenue-share table whose shares sum
to 10000 bps never exceed the total cost. -/
theorem payouts_sum_le (cost : Nat) (shares : List (Nat × Nat))
    (hsum : (shares.map Prod.snd).sum = 10000) :
    ((shares.map (fun ab => (ab.1, cost * ab.2 / 10000))).map Prod.snd).sum ≤ cost := by
  have hrw : (shares.map (fun ab => (ab.1, cost * ab.2 / 10000))).map Prod.snd =
      (shares.map (fun ab => cost * ab.2)).map (fun x => x / 10000) := by
    simp [List.map_map]
  rw [hrw]
  calc ((shares.map (fun ab => cost * ab.2)).map (fun x => x / 10000)).sum
      ≤ (shares.map (fun ab => cost * ab.2)).sum / 10000 := list_sum_div_le _ _
    _ = cost * (shares.map Prod.snd).sum / 10000 := by
        rw [show (shares.map fun ab => cost * ab.2) =
          (shares.map fun ab => cost * Prod.snd ab) from rfl,
          List.sum_map_mul_left]
    _ = cost := by rw [hsum]; exact Nat.mul_div_cancel _ (by omega)

/-- Claim C5: createPipeline rejects — with the invalid-revenue-share
error once the earlier validations pass — every submission whose shares
do not sum to exactly 10000 bps, so the revenue-share table of any
successfully created pipeline sums to exactly 10000; and on settlement
each agent's payout is floor(totalCost * agentShareBps / 10000) while the
platform share receives the rounding remainder, so the per-agent payouts
plus the platform share equal totalCost exactly.  (The orchestrator is
modelled from the spec: its code is not present under src/.) -/
theorem claim_C5_revenue_share :
    (∀ (registered : Nat → Bool) (stepSpecs shares : List (Nat × Nat)),
      stepSpecs ≠ [] →
      stepSpecs.all (fun sc => registered sc.1) = true →
      (shares.map Prod.snd).sum ≠ 10000 →
      createPipeline registered stepSpecs shares = .error .invalidRevenueShare) ∧
    (∀ (registered : Nat → Bool) (stepSpecs shares : List (Nat × Nat)) (p : Pipeline),
      createPipeline registered stepSpecs shares = .ok p →
      (p.revenueShare.map Prod.snd).sum = 10000 ∧
      pipelinePayouts p = p.revenueShare.map (fun ab => (ab.1, p.totalCost * ab.2 / 10000)) ∧
      ((pipelinePayouts p).map Prod.snd).sum + platformShare p = p.totalCost) := by
  constructor
  · intro registered stepSpecs shares hne hall hbad
    unfold createPipeline
    rw [if_neg hne, if_neg ?hreg, if_pos hbad]
    case hreg =>
      simp only [List.all_eq_true] at hall
      simp only [List.any_eq_true, not_exists]
      push_neg
      intro sc hsc
      simp [hall sc hsc]
  · intro registered stepSpecs shares p hok
    unfold createPipeline at hok
    split at hok
    · cases hok
    split at hok
    · cases hok
    split at hok
    · cases hok
    next hsum =>
      rw [not_ne_iff] at hsum
      cases hok
      refine ⟨hsum, rfl, ?_⟩
      have hle := payouts_sum_le (stepSpecs.map Prod.snd).sum shares hsum
      simp only [platformShare, pipelinePayouts]
      omega

set_option maxRecDepth 1000000 in
set_option maxHeartbeats 2000000 in
/-- Claim C8, counterexample.  Two executions with the identical
identifier and the identical terminal (end) timestamp but different start
timestamps produce different receipt ids, so the receipt id is not a hash
of the identifier and the terminal timestamp — generateReceiptId hashes
the identifier together with the START timestamp. -/
theorem claim_C8_counterexample :
    exampleExec.id = execB.id ∧
    exampleExec.endTime = execB.endTime ∧
    generateReceiptId exampleExec ≠ generateReceiptId execB := by
  refine ⟨rfl, rfl, ?_⟩
  decide

/-- Claim C8, amended: receipt identifiers are deterministic, derived as
a hash of the execution identifier and the execution's START timestamp
(not the terminal timestamp) rather than generated randomly: any two
executions agreeing on id and startTime — on any two runs — yield the
identical receipt id, and the receipt stored by generateReceipt carries
exactly that recomputable id. -/
theorem claim_C8_deterministic_id : ∀ e1 e2 : Execution,
    e1.id = e2.id → e1.startTime = e2.startTime →
    generateReceiptId e1 = generateReceiptId e2 ∧
    (∀ r, generateReceipt e1 = .ok r → r.receiptId = generateReceiptId e1) := by
  intro e1 e2 hid hst
  constructor
  · unfold generateReceiptId
    rw [hid, hst]
  · intro r hr
    unfold generateReceipt at hr
    split at hr
    · cases hr
    · injection hr with h
      rw [← h]

/-- Claim C8, witness: two executions agreeing on id and start timestamp
but differing in terminal timestamp and outcome get the same receipt
id. -/
theorem claim_C8_witness :
    generateReceiptId exampleExec = generateReceiptId execC :=
  (claim_C8_deterministic_id exampleExec execC rfl rfl).1

/-- Insertion into the descending sort preserves length. -/
theorem insertDesc_length (e : Execution) (l : List Execution) :
    (insertDesc e l).length = l.length + 1 := by
  induction l with
  | nil => rfl
  | cons x xs ih =>
      unfold insertDesc
      split
      · rfl
      · simp [List.length_cons, ih]

/-- The descending sort preserves length. -/
theorem sortByStartDesc_length (es : List Execution) :
    (sortByStartDesc es).length = es.length := by
  unfold sortByStartDesc
  induction es with
  | nil => rfl
  | cons x xs ih => simp [List.foldr_cons, insertDesc_length, ih]

/-- The exact result-size law of listReceipts: the number of returned
summaries is the caller's limit (defaulted to 50 when absent or 0, by
JavaScript truthiness) capped only by how many stored executions match
the filter beyond the requested offset — there is no hard maximum. -/
theorem listReceipts_length (store : List Execution) (o : ReceiptQueryOptions) :
    (listReceipts store o).length =
      min (jsOr o.limit 50) ((store.filter (matchesQuery o)).length - jsOr o.offset 0) := by
  unfold listReceipts
  simp [List.length_take, List.length_drop, sortByStartDesc_length]

/-- A filter whose predicate holds on the repeated element keeps a
replicated list intact. -/
theorem filter_replicate_true {α : Type} (p : α → Bool) (a : α) (h : p a = true) (n : Nat) :
    (List.replicate n a).filter p = List.replicate n a := by
  induction n with
  | zero => rfl
  | succ n ih => simp [List.replicate_succ, List.filter_cons, h, ih]

/-- Claim C5, witness: shares summing to 9000 are rejected with the
invalid-revenue-share error, and the scenario-B pipeline (costs
100, 500, 400; shares 2000, 6000, 2000) satisfies the exact revenue-share
accounting. -/
theorem claim_C5_witness :
    createPipeline (fun a => a ≤ 3) [(1, 100), (2, 500), (3, 400)]
      [(1, 2000), (2, 6000), (3, 1000)] = .error .invalidRevenueShare ∧
    (scenarioBPipeline.revenueShare.map Prod.snd).sum = 10000 ∧
    pipelinePayouts scenarioBPipeline =
      scenarioBPipeline.revenueShare.map
        (fun ab => (ab.1, scenarioBPipeline.totalCost * ab.2 / 10000)) ∧
    ((pipelinePayouts scenarioBPipeline).map Prod.snd).sum +
      platformShare scenarioBPipeline = scenarioBPipeline.totalCost := by
  have h2 := claim_C5_revenue_share.2 (fun a => a ≤ 3) [(1, 100), (2, 500), (3, 400)]
    [(1, 2000), (2, 6000), (3, 2000)] scenarioBPipeline rfl
  exact ⟨claim_C5_revenue_share.1 (fun a => a ≤ 3) [(1, 100), (2, 500), (3, 400)]
    [(1, 2000), (2, 6000), (3, 1000)] (by decide) (by decide) (by decide),
    h2.1, h2.2.1, h2.2.2⟩

